import Mathlib

/-!
Verification development for the agent routing logic described in
SYSTEM-ROUTING-LOGIC.md: request classification, routing, prerequisite and
completion verification, and the file-ownership conflict guards.  The
definitions below are shallow embeddings of the pseudo-code in that
document; undefined helpers of the source (the global file-system access
functions, needs_ui_changes, extract_feature_path,
extract_function_signatures) are parameters.
-/

/-- Python substring containment at the character-list level:
`is_pre a b` holds when `a` is a prefix of `b`. -/
def is_pre : List Char → List Char → Bool
  | [], _ => true
  | _ :: _, [] => false
  | x :: xs, y :: ys => x = y && is_pre xs ys

/-- Embedding of the Python `needle in haystack` substring test. -/
def str_contains_list (needle : List Char) : List Char → Bool
  | [] => needle.isEmpty
  | y :: ys => is_pre needle (y :: ys) || str_contains_list needle ys

/-- Embedding of the Python substring test on strings. -/
def str_contains (needle haystack : String) : Bool :=
  str_contains_list needle.toList haystack.toList

/-- Embedding of the Python `s.endswith(suffix)` test. -/
def ends_with (s suffix : String) : Bool :=
  is_pre suffix.toList.reverse s.toList.reverse

/-- The presentation-vocabulary keywords of `classify_request`. -/
def ui_keywords : List String := ["UI", "디자인", "레이아웃", "컴포넌트", "화면"]

/-- The logic-vocabulary keywords of `classify_request`. -/
def backend_keywords : List String := ["Supabase", "API", "로직", "데이터베이스", "쿼리"]

/-- Embedding of `AgentRouter.classify_request` (SYSTEM-ROUTING-LOGIC.md,
lines 309-326).  It is a pure function of the message only. -/
def classify_request (message : String) : String :=
  let has_ui := ui_keywords.any (fun kw => str_contains kw message)
  let has_backend := backend_keywords.any (fun kw => str_contains kw message)
  if has_ui && !has_backend then "ui_only"
  else if has_backend && !has_ui then "backend_only"
  else if str_contains "수정" message || str_contains "추가" message then "modify_existing"
  else "full_feature"

/-- The dictionary returned by `check_existing_files`. -/
structure FilesExist where
  types_exists : Bool
  api_exists : Bool
  components_exist : Bool
  ui_complete : Bool
deriving DecidableEq, Repr

/-- The router together with the environment functions the pseudo-code
leaves undefined: `exists_file` is the global `exists(path)` file check,
`read_file` the global file reader, and `needs_ui_changes` and
`extract_feature_path` are the router methods whose bodies the document
does not give.  The context dictionary is modelled as a string. -/
structure AgentRouter where
  exists_file : String → Bool
  read_file : String → String
  needs_ui_changes : String → Bool
  extract_feature_path : String → String → String

/-- Embedding of `AgentRouter.check_existing_files` (lines 328-341). -/
def AgentRouter.check_existing_files (r : AgentRouter) (feature_path : String) : FilesExist :=
  { types_exists := r.exists_file (feature_path ++ "/types.ts")
    api_exists := r.exists_file (feature_path ++ "/api.ts")
    components_exist := r.exists_file (feature_path ++ "/components/")
    ui_complete :=
      r.exists_file (feature_path ++ "/types.ts") &&
      r.exists_file (feature_path ++ "/api.ts") &&
      r.exists_file (feature_path ++ "/components/") }

/-- Embedding of `AgentRouter.route_request` (lines 264-307). -/
def AgentRouter.route_request (r : AgentRouter) (user_message context : String) : String :=
  let request_type := classify_request user_message
  let feature_path := r.extract_feature_path user_message context
  let files_exist := r.check_existing_files feature_path
  if request_type = "full_feature" then
    if !files_exist.ui_complete then "ui-implementer" else "feature-logic-implementer"
  else if request_type = "ui_only" then
    "ui-implementer"
  else if request_type = "backend_only" then
    if !files_exist.ui_complete then "error:missing_ui_foundation"
    else "feature-logic-implementer"
  else if request_type = "modify_existing" then
    if r.needs_ui_changes user_message then "ui-implementer"
    else "feature-logic-implementer"
  else
    "ui-implementer"

/-- The `missing` list built inside `AgentRouter.verify_prerequisites`
(lines 350-356), in the order the source appends. -/
def prereq_missing (files : FilesExist) : List String :=
  (if !files.types_exists then ["types.ts"] else []) ++
  (if !files.api_exists then ["api.ts"] else []) ++
  (if !files.components_exist then ["components/"] else [])

/-- Embedding of `AgentRouter.verify_prerequisites` (lines 343-365). -/
def AgentRouter.verify_prerequisites (r : AgentRouter) (agent feature_path : String) :
    Bool × String :=
  if agent = "feature-logic-implementer" then
    let files := r.check_existing_files feature_path
    if !files.ui_complete then
      let missing := prereq_missing files
      (false,
        "Cannot run feature-logic-implementer. Missing files:\n" ++
        String.intercalate ", " missing ++
        "\n\nPlease run ui-implementer first to create the foundation.")
    else (true, "")
  else (true, "")

/-- Embedding of `verify_ui_completion` (lines 74-95): the missing list is
built in source order, with the integration-point marker check on api.ts
performed only when api.ts exists. -/
def verify_ui_completion (exists_file : String → Bool) (read_file : String → String)
    (feature_path : String) : Bool × List String :=
  let missing : List String :=
    (if !exists_file (feature_path ++ "/types.ts") then ["types.ts"] else []) ++
    (if !exists_file (feature_path ++ "/api.ts") then ["api.ts"] else []) ++
    (if !exists_file (feature_path ++ "/components/") then ["components/"] else []) ++
    (if exists_file (feature_path ++ "/api.ts") &&
        !str_contains "🔌 INTEGRATION POINT" (read_file (feature_path ++ "/api.ts")) then
      ["api.ts (missing TODO markers)"] else [])
  (missing.length = 0, missing)

/-- Embedding of `AgentRouter.verify_completion` (lines 367-381). -/
def AgentRouter.verify_completion (r : AgentRouter) (agent feature_path : String) :
    Bool × String :=
  if agent = "ui-implementer" then
    let result := verify_ui_completion r.exists_file r.read_file feature_path
    if !result.1 then
      (false,
        "Cannot complete task. Missing required files:\n" ++
        String.intercalate ", " result.2 ++
        "\n\nYou must create all mandatory files before completing.")
    else (true, "")
  else (true, "")

/-- Result channel of `before_create_file`: the source either raises an
Error, prints a warning, or falls through silently. -/
inductive CreateCheck where
  | violation (msg : String)
  | warn (msg : String)
  | ok
deriving DecidableEq, Repr

/-- Does the create check raise an error? -/
def CreateCheck.raises : CreateCheck → Bool
  | .violation _ => true
  | _ => false

/-- The error text raised for duplicate api.ts creation (lines 203-206). -/
def dup_api_error : String :=
  "FORBIDDEN: feature-logic-implementer cannot create api.ts. " ++
  "This file already exists and should only be modified, not replaced."

/-- The warning text printed for extending types.ts (line 212). -/
def types_warning : String :=
  "WARNING: Extending existing types.ts. Do not delete existing types."

/-- Embedding of `before_create_file` (lines 196-213): an existing api.ts
created by feature-logic-implementer raises; an existing types.ts created
by feature-logic-implementer only warns; everything else passes. -/
def before_create_file (exists_file : String → Bool) (agent file_path : String) : CreateCheck :=
  if ends_with file_path "api.ts" && exists_file file_path &&
      agent = "feature-logic-implementer" then
    .violation dup_api_error
  else if ends_with file_path "types.ts" && exists_file file_path &&
      agent = "feature-logic-implementer" then
    .warn types_warning
  else
    .ok

/-- Python dict lookup on a signature table modelled as an association
list (first match wins, as duplicate keys cannot occur in a dict). -/
def lookup_sig : List (String × String) → String → Option String
  | [], _ => none
  | (n, s) :: rest, name => if n = name then some s else lookup_sig rest name

/-- The loop body of `verify_api_signature_unchanged` (lines 225-235):
walk the original signatures, raising on the first function that was
removed from or changed in the modified table. -/
def check_signatures : List (String × String) → List (String × String) → Except String Unit
  | [], _ => .ok ()
  | (func_name, sig) :: rest, modified =>
    match lookup_sig modified func_name with
    | none => .error ("Function " ++ func_name ++ " was removed from api.ts")
    | some msig =>
      if sig ≠ msig then
        .error ("Function signature changed: " ++ func_name)
      else check_signatures rest modified

/-- Embedding of `verify_api_signature_unchanged` (lines 218-236),
parameterised by the undefined helper `extract_function_signatures`. -/
def verify_api_signature_unchanged (extract_function_signatures : String → List (String × String))
    (original_api modified_api : String) : Except String Unit :=
  check_signatures (extract_function_signatures original_api)
    (extract_function_signatures modified_api)

/-- The METRICS counters (lines 601-609), all starting at zero. -/
structure Metrics where
  total_requests : Nat
  routed_to_ui : Nat
  routed_to_backend : Nat
  blocked_missing_prerequisites : Nat
  blocked_incomplete_ui : Nat
  blocked_file_conflicts : Nat
  successful_collaborations : Nat
deriving DecidableEq, Repr

/-- The initial METRICS value from the source. -/
def METRICS : Metrics := ⟨0, 0, 0, 0, 0, 0, 0⟩

/-- Modelled from the spec: SYSTEM-ROUTING-LOGIC.md declares the METRICS
counters but the code updating them during routing is absent from the
repository (the Implementation Checklist lists metrics as a pending
phase).  Following the spec sentence "Every decision increments the
corresponding counter", the counter matching the routing decision and
total_requests are each incremented once. -/
def Metrics.record (m : Metrics) (decision : String) : Metrics :=
  let m := { m with total_requests := m.total_requests + 1 }
  if decision = "ui-implementer" then
    { m with routed_to_ui := m.routed_to_ui + 1 }
  else if decision = "feature-logic-implementer" then
    { m with routed_to_backend := m.routed_to_backend + 1 }
  else
    { m with blocked_missing_prerequisites := m.blocked_missing_prerequisites + 1 }

/-- Modelled from the spec: a route call that also performs the metrics
bookkeeping the spec mandates. -/
def AgentRouter.route_request_with_metrics (r : AgentRouter) (user_message context : String)
    (m : Metrics) : String × Metrics :=
  let decision := r.route_request user_message context
  (decision, m.record decision)

/-! ### Helper definitions for concrete instances -/

/-- A router over an empty workspace: no file exists, no UI changes are
ever implied, every request maps to the app/time-slots workspace. -/
def r_noui : AgentRouter :=
  ⟨fun _ => false, fun _ => "", fun _ => false, fun _ _ => "app/time-slots"⟩

/-- A concrete signature extractor where the modified api gains one
exported operation that the original does not have. -/
def sig_extract : String → List (String × String) :=
  fun s =>
    if s = "modified" then
      [("getTimeSlots", "() => Promise"), ("updateTimeSlot", "(x) => Promise")]
    else
      [("getTimeSlots", "() => Promise")]

/-- A concrete signature extractor that returns the same duplicate-free
table for every api text. -/
def sig_extract_id : String → List (String × String) :=
  fun _ => [("getTimeSlots", "() => Promise"), ("createTimeSlot", "(x) => Promise")]

/-! ### Helper lemmas -/

/-- classify_request only ever returns one of its four class strings. -/
lemma classify_request_cases (msg : String) :
    classify_request msg = "ui_only" ∨ classify_request msg = "backend_only" ∨
    classify_request msg = "modify_existing" ∨ classify_request msg = "full_feature" := by
  simp only [classify_request]
  cases h1 : ui_keywords.any (fun kw => str_contains kw msg) <;>
  cases h2 : backend_keywords.any (fun kw => str_contains kw msg) <;>
  cases h3 : (str_contains "수정" msg || str_contains "추가" msg) <;>
    simp [h1, h2, h3]

/-- If every original entry is still present in the modified table with the
same signature, the signature walk raises nothing. -/
lemma check_signatures_ok_of_preserved (origs mods : List (String × String))
    (h : ∀ p ∈ origs, lookup_sig mods p.1 = some p.2) :
    check_signatures origs mods = Except.ok () := by
  induction origs with
  | nil => rfl
  | cons p rest ih =>
    obtain ⟨n, s⟩ := p
    have hp := h (n, s) (List.mem_cons_self _ _)
    have ih2 := ih (fun q hq => h q (List.mem_cons_of_mem _ hq))
    simp [check_signatures, hp, ih2]

/-- In a duplicate-key-free table (the image of a Python dict), lookup of
any entry key returns that entry value. -/
lemma lookup_sig_of_nodup (l : List (String × String)) (p : String × String)
    (hnd : (l.map Prod.fst).Nodup) (hp : p ∈ l) :
    lookup_sig l p.1 = some p.2 := by
  induction l with
  | nil => cases hp
  | cons q rest ih =>
    obtain ⟨n, s⟩ := q
    simp only [List.map_cons, List.nodup_cons] at hnd
    rcases List.mem_cons.mp hp with h | h
    · subst h; simp [lookup_sig]
    · have hne : n ≠ p.1 := by
        intro hcontra
        exact hnd.1 (hcontra ▸ List.mem_map_of_mem Prod.fst h)
      simp only [lookup_sig, if_neg hne]
      exact ih hnd.2 h

/-! ### Claim theorems -/

/-- C1 counterexample: the message 수정 classifies as modify_existing, the
workspace has no foundation file at all (ui_complete is false) and the
request implies no new presentation elements, yet route_request assigns
feature-logic-implementer instead of the ui-implementer the claim
requires for an incomplete foundation. -/
theorem modify_existing_ignores_foundation_cex :
    classify_request "수정" = "modify_existing" ∧
    (r_noui.check_existing_files (r_noui.extract_feature_path "수정" "ctx")).ui_complete = false ∧
    r_noui.needs_ui_changes "수정" = false ∧
    r_noui.route_request "수정" "ctx" = "feature-logic-implementer" := by
  refine ⟨by decide, by decide, by decide, by decide⟩

/-- C1 (amended): for every request classified ModifyExisting,
route_request returns ui-implementer exactly when the request implies new
presentation elements and feature-logic-implementer otherwise, without
consulting the foundation state at all. -/
theorem modify_existing_routes_by_ui_need (r : AgentRouter) (msg ctx : String)
    (h : classify_request msg = "modify_existing") :
    r.route_request msg ctx =
      (if r.needs_ui_changes msg then "ui-implementer" else "feature-logic-implementer") := by
  simp [AgentRouter.route_request, h]

/-- Witness for modify_existing_routes_by_ui_need at the concrete message
수정 over the empty workspace. -/
theorem modify_existing_routes_by_ui_need_case :
    classify_request "수정" = "modify_existing" ∧
    r_noui.route_request "수정" "ctx" =
      (if r_noui.needs_ui_changes "수정" then "ui-implementer"
       else "feature-logic-implementer") :=
  ⟨by decide, modify_existing_routes_by_ui_need r_noui "수정" "ctx" (by decide)⟩

/-- C2 counterexample: the modified api gains the exported operation
updateTimeSlot which the original table does not contain, yet
verify_api_signature_unchanged raises no violation at all. -/
theorem signature_guard_allows_addition_cex :
    lookup_sig (sig_extract "original") "updateTimeSlot" = none ∧
    lookup_sig (sig_extract "modified") "updateTimeSlot" = some "(x) => Promise" ∧
    verify_api_signature_unchanged sig_extract "original" "modified" = Except.ok () :=
  ⟨by decide, by decide, rfl⟩

/-- C2 (amended): the signature guard passes whenever every original
operation is still present with an identical signature, regardless of any
operations added in the modified api; it reports violations only for
removed or changed original operations, never for additions. -/
theorem signature_guard_ok_of_originals_preserved
    (extract_function_signatures : String → List (String × String))
    (original_api modified_api : String)
    (h : ∀ p ∈ extract_function_signatures original_api,
      lookup_sig (extract_function_signatures modified_api) p.1 = some p.2) :
    verify_api_signature_unchanged extract_function_signatures original_api modified_api =
      Except.ok () :=
  check_signatures_ok_of_preserved _ _ h

/-- Witness for signature_guard_ok_of_originals_preserved at the concrete
extractor whose modified table adds updateTimeSlot. -/
theorem signature_guard_ok_of_originals_preserved_case :
    (∀ p ∈ sig_extract "original",
      lookup_sig (sig_extract "modified") p.1 = some p.2) ∧
    verify_api_signature_unchanged sig_extract "original" "modified" = Except.ok () :=
  ⟨by decide, signature_guard_ok_of_originals_preserved sig_extract "original" "modified"
    (by decide)⟩

/-- C8: every request classified ui_only is routed to ui-implementer,
whatever the workspace state (the router and hence its file system and
workspace are universally quantified). -/
theorem ui_only_always_routes_producer (r : AgentRouter) (msg ctx : String)
    (h : classify_request msg = "ui_only") :
    r.route_request msg ctx = "ui-implementer" := by
  simp [AgentRouter.route_request, h]

/-- Witness for ui_only_always_routes_producer at the concrete message
디자인 over the empty workspace. -/
theorem ui_only_always_routes_producer_case :
    classify_request "디자인" = "ui_only" ∧
    r_noui.route_request "디자인" "ctx" = "ui-implementer" :=
  ⟨by decide, ui_only_always_routes_producer r_noui "디자인" "ctx" (by decide)⟩

/-- C9: when the extracted before-signature table and after-signature
table are equal (and duplicate-key-free, as the image of a Python dict
always is), verify_api_signature_unchanged reports no violation. -/
theorem signature_guard_no_change_no_violation
    (extract_function_signatures : String → List (String × String))
    (original_api modified_api : String)
    (hnd : ((extract_function_signatures original_api).map Prod.fst).Nodup)
    (heq : extract_function_signatures original_api = extract_function_signatures modified_api) :
    verify_api_signature_unchanged extract_function_signatures original_api modified_api =
      Except.ok () := by
  apply check_signatures_ok_of_preserved
  intro p hp
  rw [← heq]
  exact lookup_sig_of_nodup _ p hnd hp

/-- Witness for signature_guard_no_change_no_violation at a concrete
duplicate-free extractor that is identical before and after. -/
theorem signature_guard_no_change_no_violation_case :
    ((sig_extract_id "original").map Prod.fst).Nodup ∧
    verify_api_signature_unchanged sig_extract_id "original" "modified" = Except.ok () :=
  ⟨by decide, signature_guard_no_change_no_violation sig_extract_id "original" "modified"
    (by decide) rfl⟩

/-- C3: for the implementer role, verify_prerequisites fails exactly when
some foundation artifact is absent, and the reported missing list holds
exactly the absent artifacts (membership both ways, no extras and no
omissions); for the producer role (ui-implementer) it always succeeds. -/
theorem verify_prerequisites_exact_missing (r : AgentRouter) (feature_path : String) :
    ((r.verify_prerequisites "feature-logic-implementer" feature_path).1 = false ↔
      (r.check_existing_files feature_path).types_exists = false ∨
      (r.check_existing_files feature_path).api_exists = false ∨
      (r.check_existing_files feature_path).components_exist = false) ∧
    (∀ s, s ∈ prereq_missing (r.check_existing_files feature_path) ↔
      (s = "types.ts" ∧ (r.check_existing_files feature_path).types_exists = false) ∨
      (s = "api.ts" ∧ (r.check_existing_files feature_path).api_exists = false) ∨
      (s = "components/" ∧ (r.check_existing_files feature_path).components_exist = false)) ∧
    (r.verify_prerequisites "ui-implementer" feature_path).1 = true := by
  cases h1 : r.exists_file (feature_path ++ "/types.ts") <;>
  cases h2 : r.exists_file (feature_path ++ "/api.ts") <;>
  cases h3 : r.exists_file (feature_path ++ "/components/") <;>
    simp [AgentRouter.verify_prerequisites, AgentRouter.check_existing_files,
      prereq_missing, h1, h2, h3]

/-- C4: for the producer role (ui-implementer), verify_completion succeeds
exactly when all three foundation artifacts exist and the api.ts content
carries the literal integration-point marker; in particular, with all
three artifacts present but no marker, it fails. -/
theorem verify_completion_requires_markers (r : AgentRouter) (feature_path : String) :
    (r.verify_completion "ui-implementer" feature_path).1 =
      (r.exists_file (feature_path ++ "/types.ts") &&
       r.exists_file (feature_path ++ "/api.ts") &&
       r.exists_file (feature_path ++ "/components/") &&
       str_contains "🔌 INTEGRATION POINT" (r.read_file (feature_path ++ "/api.ts"))) := by
  cases h1 : r.exists_file (feature_path ++ "/types.ts") <;>
  cases h2 : r.exists_file (feature_path ++ "/api.ts") <;>
  cases h3 : r.exists_file (feature_path ++ "/components/") <;>
  cases h4 : str_contains "🔌 INTEGRATION POINT" (r.read_file (feature_path ++ "/api.ts")) <;>
    simp [AgentRouter.verify_completion, verify_ui_completion, h1, h2, h3, h4]

/-- C5 counterexample: the empty intent is silently classified under the
default class full_feature and routed to an agent; no rejection happens
(the routing outcome is an assignment, not the error outcome). -/
theorem empty_intent_silently_routed_cex :
    classify_request "" = "full_feature" ∧
    r_noui.route_request "" "ctx" = "ui-implementer" := by
  refine ⟨by decide, by decide⟩

/-- C5 (amended): an empty intent is not rejected: it classifies as the
default full_feature and every router assigns it to one of the two
agents, never producing the blocked outcome. -/
theorem empty_intent_defaults_full_feature (r : AgentRouter) (ctx : String) :
    classify_request "" = "full_feature" ∧
    (r.route_request "" ctx = "ui-implementer" ∨
     r.route_request "" ctx = "feature-logic-implementer") := by
  have h : classify_request "" = "full_feature" := by decide
  refine ⟨h, ?_⟩
  cases hc : (r.check_existing_files (r.extract_feature_path "" ctx)).ui_complete <;>
    simp [AgentRouter.route_request, h, hc]

/-- C6 counterexample: the implementer creating the already existing
types.ts artifact is not reported as a violation; before_create_file only
prints a warning and lets the operation proceed. -/
theorem duplicate_create_types_only_warns_cex :
    before_create_file (fun _ => true) "feature-logic-implementer" "app/auth/types.ts" =
      CreateCheck.warn types_warning ∧
    (before_create_file (fun _ => true) "feature-logic-implementer"
      "app/auth/types.ts").raises = false := by
  refine ⟨by decide, by decide⟩

/-- C6 (amended): before_create_file raises a violation exactly when the
implementer creates an already existing path ending in api.ts; an already
existing types.ts created by the implementer only yields a warning, and
all other creations (components/ included) are not checked at all. -/
theorem before_create_raises_iff (exists_file : String → Bool) (agent file_path : String) :
    ((before_create_file exists_file agent file_path).raises = true ↔
      (ends_with file_path "api.ts" = true ∧ exists_file file_path = true ∧
       agent = "feature-logic-implementer")) ∧
    (ends_with file_path "api.ts" = false → ends_with file_path "types.ts" = true →
      exists_file file_path = true → agent = "feature-logic-implementer" →
      before_create_file exists_file agent file_path = CreateCheck.warn types_warning) := by
  unfold before_create_file
  split_ifs with hA hT <;>
    simp_all [CreateCheck.raises, Bool.and_eq_true, decide_eq_true_eq]

/-- Each metrics record step, for any decision string, adds 1 to
total_requests and to exactly one of the five routing counters. -/
lemma metrics_record_step (m : Metrics) (d : String) :
    ((m.record d).total_requests = m.total_requests + 1) ∧
    ((m.record d).routed_to_ui + (m.record d).routed_to_backend +
     (m.record d).blocked_missing_prerequisites + (m.record d).blocked_incomplete_ui +
     (m.record d).blocked_file_conflicts =
       m.routed_to_ui + m.routed_to_backend + m.blocked_missing_prerequisites +
       m.blocked_incomplete_ui + m.blocked_file_conflicts + 1) ∧
    (m.routed_to_ui ≤ (m.record d).routed_to_ui ∧
     (m.record d).routed_to_ui ≤ m.routed_to_ui + 1) ∧
    (m.routed_to_backend ≤ (m.record d).routed_to_backend ∧
     (m.record d).routed_to_backend ≤ m.routed_to_backend + 1) ∧
    (m.blocked_missing_prerequisites ≤ (m.record d).blocked_missing_prerequisites ∧
     (m.record d).blocked_missing_prerequisites ≤ m.blocked_missing_prerequisites + 1) ∧
    (m.blocked_incomplete_ui ≤ (m.record d).blocked_incomplete_ui ∧
     (m.record d).blocked_incomplete_ui ≤ m.blocked_incomplete_ui + 1) ∧
    (m.blocked_file_conflicts ≤ (m.record d).blocked_file_conflicts ∧
     (m.record d).blocked_file_conflicts ≤ m.blocked_file_conflicts + 1) := by
  simp only [Metrics.record]
  split_ifs <;> simp <;> omega

/-- C7: each route call with metrics bookkeeping increments total_requests
by exactly 1 and exactly one of the five routing counters by exactly 1
(their sum grows by 1 while each single counter grows by at most 1), so
every counter is monotonically non-decreasing. -/
theorem route_metrics_increments_exactly_one (r : AgentRouter) (msg ctx : String)
    (m : Metrics) :
    ((r.route_request_with_metrics msg ctx m).2.total_requests = m.total_requests + 1) ∧
    ((r.route_request_with_metrics msg ctx m).2.routed_to_ui +
     (r.route_request_with_metrics msg ctx m).2.routed_to_backend +
     (r.route_request_with_metrics msg ctx m).2.blocked_missing_prerequisites +
     (r.route_request_with_metrics msg ctx m).2.blocked_incomplete_ui +
     (r.route_request_with_metrics msg ctx m).2.blocked_file_conflicts =
       m.routed_to_ui + m.routed_to_backend + m.blocked_missing_prerequisites +
       m.blocked_incomplete_ui + m.blocked_file_conflicts + 1) ∧
    (m.routed_to_ui ≤ (r.route_request_with_metrics msg ctx m).2.routed_to_ui ∧
     (r.route_request_with_metrics msg ctx m).2.routed_to_ui ≤ m.routed_to_ui + 1) ∧
    (m.routed_to_backend ≤ (r.route_request_with_metrics msg ctx m).2.routed_to_backend ∧
     (r.route_request_with_metrics msg ctx m).2.routed_to_backend ≤ m.routed_to_backend + 1) ∧
    (m.blocked_missing_prerequisites ≤
      (r.route_request_with_metrics msg ctx m).2.blocked_missing_prerequisites ∧
     (r.route_request_with_metrics msg ctx m).2.blocked_missing_prerequisites ≤
      m.blocked_missing_prerequisites + 1) ∧
    (m.blocked_incomplete_ui ≤ (r.route_request_with_metrics msg ctx m).2.blocked_incomplete_ui ∧
     (r.route_request_with_metrics msg ctx m).2.blocked_incomplete_ui ≤
      m.blocked_incomplete_ui + 1) ∧
    (m.blocked_file_conflicts ≤ (r.route_request_with_metrics msg ctx m).2.blocked_file_conflicts ∧
     (r.route_request_with_metrics msg ctx m).2.blocked_file_conflicts ≤
      m.blocked_file_conflicts + 1) := by
  have h : (r.route_request_with_metrics msg ctx m).2 =
      m.record (r.route_request msg ctx) := rfl
  rw [h]
  exact metrics_record_step m (r.route_request msg ctx)

/-- C10: route_request produces the blocked outcome exactly when the
request classifies backend_only and the foundation is incomplete; every
call returns one of the two agent assignments or that single error. -/
theorem route_blocked_only_backend_incomplete (r : AgentRouter) (msg ctx : String) :
    (r.route_request msg ctx = "error:missing_ui_foundation" ↔
      (classify_request msg = "backend_only" ∧
       (r.check_existing_files (r.extract_feature_path msg ctx)).ui_complete = false)) ∧
    (r.route_request msg ctx = "ui-implementer" ∨
     r.route_request msg ctx = "feature-logic-implementer" ∨
     r.route_request msg ctx = "error:missing_ui_foundation") := by
  rcases classify_request_cases msg with h | h | h | h <;>
  cases hc : (r.check_existing_files (r.extract_feature_path msg ctx)).ui_complete <;>
    simp [AgentRouter.route_request, h, hc] <;>
    cases hn : r.needs_ui_changes msg <;> simp [hn]
